import Mathlib

/-!
Verification development for `scripts/fetch_feeds.py` of the github-rss
repository: a static RSS aggregator that fetches feeds, normalizes entries
into articles, filters them by a cutoff timestamp, sorts them, and renders
a filterable HTML page.

The Python source is shallowly embedded: dictionaries with defensively
accessed fields become structures with `Option` fields, `feedparser.parse`
(an external collaborator that may raise) becomes an explicit
`String → Except String (List RawEntry)` parameter, and timestamps become
records of calendar fields compared chronologically.
-/

set_option maxRecDepth 20000

/-- Models `time.struct_time` as produced by feedparser in the
`published_parsed` / `updated_parsed` fields: a tuple of calendar fields.
Only the fields the script can observe (via `mktime` and `strftime`
down to minutes/seconds) are kept. -/
structure StructTime where
  year : Nat
  month : Nat
  day : Nat
  hour : Nat
  minute : Nat
  second : Nat
deriving DecidableEq, Repr

/-- Models a Python `datetime`: calendar fields plus whether the value is
timezone-aware with a UTC offset (`tzinfo=timezone.utc`). -/
structure DateTime where
  year : Nat
  month : Nat
  day : Nat
  hour : Nat
  minute : Nat
  second : Nat
  tzUtc : Bool
deriving DecidableEq, Repr

/-- Chronological code of a `DateTime`: on calendar-valid field values this
encoding is strictly monotone in chronological order, so comparing codes
models Python `datetime` comparison (both operands here always carry the
same UTC offset, so the offset does not affect the order). -/
def dtCode (d : DateTime) : Nat :=
  ((((d.year * 13 + d.month) * 32 + d.day) * 24 + d.hour) * 60 + d.minute) * 60 + d.second

/-- Models `datetime <= datetime` (both UTC-aware). -/
def dtLe (a b : DateTime) : Prop := dtCode a ≤ dtCode b

/-- Models `datetime < datetime` (both UTC-aware). -/
def dtLt (a b : DateTime) : Prop := dtCode a < dtCode b

instance (a b : DateTime) : Decidable (dtLe a b) := Nat.decLe _ _

instance (a b : DateTime) : Decidable (dtLt a b) := Nat.decLt _ _

/-- Models `datetime.fromtimestamp(mktime(t), tz=timezone.utc)` applied to a
`struct_time` `t`, under the script's UTC environment: the calendar fields
are preserved and the result is timezone-aware with a UTC offset. -/
def fromStructUtc (t : StructTime) : DateTime :=
  { year := t.year, month := t.month, day := t.day,
    hour := t.hour, minute := t.minute, second := t.second, tzUtc := true }

/-- Models one element of `entry.enclosures`: a dict whose `type` and `href`
keys are read with `.get` (so both may be absent). -/
structure Enclosure where
  type : Option String
  href : Option String
deriving DecidableEq, Repr

/-- Models one element of `entry.media_thumbnail`. -/
structure MediaThumb where
  url : Option String
deriving DecidableEq, Repr

/-- Models one element of `entry.media_content`. -/
structure MediaContent where
  medium : Option String
  type : Option String
  url : Option String
deriving DecidableEq, Repr

/-- Models one element of `entry.content`: a dict whose `value` key is read
with `.get("value", "")`. -/
structure ContentBlock where
  value : Option String
deriving DecidableEq, Repr

/-- Models a feedparser entry (`RawEntry` of the spec): every field is
accessed defensively in the script (`getattr`/`.get` with defaults), so
every field is optional; list-valued fields default to the empty list. -/
structure RawEntry where
  title : Option String
  link : Option String
  summary : Option String
  content : List ContentBlock
  published_parsed : Option StructTime
  updated_parsed : Option StructTime
  enclosures : List Enclosure
  media_thumbnail : List MediaThumb
  media_content : List MediaContent
deriving DecidableEq, Repr

/-- Models one entry of the feeds.json configuration list: `url` and `name`
are required (`feed_info["url"]`, `feed_info["name"]`), `labels` is read
with `.get("labels", [])`, so an absent key is the empty list. -/
structure FeedConfig where
  url : String
  name : String
  labels : List String
deriving DecidableEq, Repr

/-- Models the normalized article dict built in `fetch_articles`. -/
structure Article where
  title : String
  link : String
  source : String
  labels : List String
  published : DateTime
  summary : String
  image : Option String
deriving DecidableEq, Repr

/-- Auxiliary recursion for `strip_html`, with fuel bounded by the list
length (each step consumes at least one character).  Implements Python
`re.sub(r"<[^>]+>", "", text)`: scanning left to right, a `<` followed by
at least one non-`>` character and then a `>` is removed together with the
enclosed span; a `<` immediately followed by `>` matches nothing (the
pattern needs one or more inner characters), and a `<` with no later `>`
ends the scan (no further match can close). -/
def stripHtmlAux : Nat → List Char → List Char
  | 0, cs => cs
  | _ + 1, [] => []
  | fuel + 1, c :: rest =>
    if c = '<' then
      if (rest.takeWhile (fun d => d ≠ '>')).isEmpty then
        c :: stripHtmlAux fuel rest
      else
        match rest.dropWhile (fun d => d ≠ '>') with
        | _ :: rest' => stripHtmlAux fuel rest'
        | [] => c :: rest
    else
      c :: stripHtmlAux fuel rest

/-- Models `strip_html` (line 19): `re.sub(r"<[^>]+>", "", text)`. -/
def strip_html (text : String) : String :=
  ⟨stripHtmlAux text.data.length text.data⟩

/-- Models Python `str.strip()` on both ends (the script only ever strips
whitespace-trimmed summaries). -/
def trimWS (cs : List Char) : List Char :=
  ((cs.dropWhile Char.isWhitespace).reverse.dropWhile Char.isWhitespace).reverse

/-- Models the summary computation of `fetch_articles` (lines 79-82):
`strip_html(summary_raw).strip()`, then truncation to 200 characters with a
`"..."` suffix when longer. -/
def mkSummary (raw : String) : String :=
  let t := trimWS (strip_html raw).data
  if 200 < t.length then ⟨t.take 200 ++ "...".data⟩ else ⟨t⟩

/-- Capture step of the inline-image pattern: models the `src=["\x27]([^"\x27]+)`
tail of the regex in `extract_image` (line 49).  Succeeds when the text
starts with `src=` followed by a quote and at least one non-quote
character; returns the captured run of non-quote characters. -/
def srcCapture (cs : List Char) : Option (List Char) :=
  if ("src=".data).isPrefixOf cs then
    match cs.drop 4 with
    | q :: rest =>
      if q = '"' ∨ q = Char.ofNat 39 then
        let cap := rest.takeWhile (fun d => d ≠ '"' ∧ d ≠ Char.ofNat 39)
        if cap.isEmpty then none else some cap
      else none
    | [] => none
  else none

/-- Greedy backtracking of the `[^>]+` part of the inline-image regex: try
the longest admissible gap first (`j` characters consumed after `<img`),
shrinking until `src=` with a quoted value matches, like a backtracking
regex engine does for `<img[^>]+src=...`.  `j` never exceeds the length of
the maximal `>`-free run, so the consumed gap stays inside `[^>]*`. -/
def findSrcFrom (text : List Char) : Nat → Option (List Char)
  | 0 => none
  | j + 1 =>
    match srcCapture (text.drop (j + 1)) with
    | some cap => some cap
    | none => findSrcFrom text j

/-- Match attempt of the inline-image regex at the head of `cs`: models one
anchor position of `re.search(r'<img[^>]+src=["\x27]([^"\x27]+)', text)`. -/
def imgMatchAt (cs : List Char) : Option (List Char) :=
  if ("<img".data).isPrefixOf cs then
    let rest := cs.drop 4
    findSrcFrom rest (rest.takeWhile (fun d => d ≠ '>')).length
  else none

/-- Models `re.search(r'<img[^>]+src=["\x27]([^"\x27]+)', text)` (line 49):
anchor positions are tried left to right; the first position with a match
wins and its captured group is returned. -/
def reSearchImg : List Char → Option (List Char)
  | [] => none
  | c :: rest =>
    match imgMatchAt (c :: rest) with
    | some cap => some cap
    | none => reSearchImg rest

/-- Condition of strategy 1 of `extract_image` (line 27):
`enc.get("type", "").startswith("image/")`. -/
def encIsImage (enc : Enclosure) : Bool :=
  "image/".data.isPrefixOf (enc.type.getD "").data

/-- Condition of strategy 2 of `extract_image` (line 32): `mt.get("url")` is
truthy, i.e. present and non-empty. -/
def thumbHasUrl (mt : MediaThumb) : Bool :=
  mt.url.getD "" ≠ ""

/-- Condition of strategy 3 of `extract_image` (line 37):
`mc.get("medium") == "image" or mc.get("type", "").startswith("image/")`. -/
def mcIsImage (mc : MediaContent) : Bool :=
  mc.medium == some "image" || "image/".data.isPrefixOf (mc.type.getD "").data

/-- Text scanned by strategy 4 of `extract_image` for the `summary` field
(line 48): `getattr(entry, "summary", "") or ""`. -/
def summaryText (entry : RawEntry) : String :=
  entry.summary.getD ""

/-- Text scanned by strategy 4 of `extract_image` for the `content` field
(lines 44-46): the `value` of the first content block if the content list
is non-empty, else the empty string. -/
def contentText (entry : RawEntry) : String :=
  match entry.content with
  | c :: _ => c.value.getD ""
  | [] => ""

/-- Models `extract_image` (lines 23-53).  The four strategies are tried in
order; each `return` in the source exits the function, including the
`return enc.get("href")` / `return mc.get("url")` ones that may return
`None` when the matching element lacks the URL key. -/
def extract_image (entry : RawEntry) : Option String :=
  match entry.enclosures.find? encIsImage with
  | some enc => enc.href
  | none =>
    match entry.media_thumbnail.find? thumbHasUrl with
    | some mt => mt.url
    | none =>
      match entry.media_content.find? mcIsImage with
      | some mc => mc.url
      | none =>
        match reSearchImg (summaryText entry).data with
        | some cap => some ⟨cap⟩
        | none =>
          match reSearchImg (contentText entry).data with
          | some cap => some ⟨cap⟩
          | none => none

/-- Timestamp resolution of `fetch_articles` (lines 69-74): try
`published_parsed` then `updated_parsed`; the first present field wins and
is converted with `datetime.fromtimestamp(mktime(t), tz=timezone.utc)`. -/
def resolvePublished (entry : RawEntry) : Option DateTime :=
  match entry.published_parsed with
  | some t => some (fromStructUtc t)
  | none =>
    match entry.updated_parsed with
    | some t => some (fromStructUtc t)
    | none => none

/-- Models the per-entry body of the `fetch_articles` loop (lines 68-94):
resolve the timestamp (discard when absent or strictly before the cutoff)
and build the article dict with its fallback field values. -/
def normalizeEntry (sourceName : String) (labels : List String) (cutoff : DateTime)
    (entry : RawEntry) : Option Article :=
  match resolvePublished entry with
  | none => none
  | some published =>
    if dtLt published cutoff then none
    else
      some
        { title := entry.title.getD "(no title)"
          link := entry.link.getD "#"
          source := sourceName
          labels := labels
          published := published
          summary := mkSummary (entry.summary.getD "")
          image := extract_image entry }

/-- Articles accumulated by the feed loop of `fetch_articles` (lines 57-94),
before the final sort.  `parse` models the external `feedparser.parse`
collaborator: a raised error is an `Except.error`, upon which the feed is
skipped (`except ... continue`). -/
def collectArticles (parse : String → Except String (List RawEntry))
    (feeds : List FeedConfig) (cutoff : DateTime) : List Article :=
  feeds.flatMap fun feed =>
    match parse feed.url with
    | Except.error _ => []
    | Except.ok entries => entries.filterMap (normalizeEntry feed.name feed.labels cutoff)

/-- Sort relation of `articles.sort(key=lambda a: a["published"], reverse=True)`:
`a` may precede `b` when `a["published"] >= b["published"]`. -/
def articleOrder (a b : Article) : Prop := dtLe b.published a.published

instance : DecidableRel articleOrder := fun _ _ => Nat.decLe _ _

instance : IsTotal Article articleOrder :=
  ⟨fun a b => Nat.le_total (dtCode b.published) (dtCode a.published)⟩

instance : IsTrans Article articleOrder :=
  ⟨fun _ _ _ h1 h2 => Nat.le_trans h2 h1⟩

/-- Models `fetch_articles` (lines 56-97): collect the articles of every
feed, then sort by `published` descending.  Python `list.sort` is a stable
sort; `List.insertionSort` with `articleOrder` is extensionally the same
stable descending sort. -/
def fetch_articles (parse : String → Except String (List RawEntry))
    (feeds : List FeedConfig) (cutoff : DateTime) : List Article :=
  List.insertionSort articleOrder (collectArticles parse feeds cutoff)

/-- Codepoint-lexicographic comparison of character lists: models Python
string comparison (`sorted` on strings). -/
def lexLe : List Char → List Char → Bool
  | [], _ => true
  | _ :: _, [] => false
  | a :: as, b :: bs =>
    if a.toNat < b.toNat then true
    else if b.toNat < a.toNat then false
    else lexLe as bs

/-- Sort relation used for `sorted(...)` on strings. -/
def strLe (a b : String) : Prop := lexLe a.data b.data = true

instance : DecidableRel strLe := fun _ _ => instDecidableEqBool _ _

/-- Models `collect_all_labels` (lines 100-104): the set of all labels of
all articles, sorted.  `sorted(set(xs))` is the unique sorted
duplicate-free list with the membership of `xs`; it is computed here as a
sort of a deduplication. -/
def collect_all_labels (articles : List Article) : List String :=
  List.insertionSort strLe (articles.flatMap (fun a => a.labels)).dedup

/-- Models `collect_all_sources` (lines 107-111): the set of all source
names, sorted. -/
def collect_all_sources (articles : List Article) : List String :=
  List.insertionSort strLe (articles.map (fun a => a.source)).dedup

/-- Models `html.escape(s)` (quote=True) as its net effect on each
character: `&`, `<`, `>`, `"` and the apostrophe are replaced by their
entities (the `&` replacement runs first in CPython, so later replacements
are never re-escaped, which makes the sequential replaces equal to this
character-wise map). -/
def escapeChar (c : Char) : List Char :=
  if c = '&' then ['&', 'a', 'm', 'p', ';']
  else if c = '<' then ['&', 'l', 't', ';']
  else if c = '>' then ['&', 'g', 't', ';']
  else if c = Char.ofNat 34 then ['&', 'q', 'u', 'o', 't', ';']
  else if c = Char.ofNat 39 then ['&', '#', 'x', '2', '7', ';']
  else [c]

/-- Models `html.escape` on a whole string. -/
def escapeHtml (s : String) : String :=
  ⟨s.data.flatMap escapeChar⟩

/-- Decimal digits of `n`, most significant first; fuel-based structural
recursion so that it evaluates inside the kernel (`fuel > n` suffices,
since `n / 10 < n` for `n ≥ 10`). -/
def natDigitsAux : Nat → Nat → List Char
  | 0, _ => []
  | fuel + 1, n =>
    if n < 10 then [Char.ofNat (48 + n)]
    else natDigitsAux fuel (n / 10) ++ [Char.ofNat (48 + n % 10)]

/-- Models Python `str(n)` for a non-negative integer. -/
def natStr (n : Nat) : String :=
  ⟨natDigitsAux (n + 1) n⟩

/-- Zero-padding to two digits, as `%m`, `%d`, `%H`, `%M` of `strftime`. -/
def pad2 (n : Nat) : String :=
  if n < 10 then "0" ++ natStr n else natStr n

/-- Zero-padding to four digits, as `%Y` of `strftime`. -/
def pad4 (n : Nat) : String :=
  if n < 10 then "000" ++ natStr n
  else if n < 100 then "00" ++ natStr n
  else if n < 1000 then "0" ++ natStr n
  else natStr n

/-- Models `dt.strftime("%Y-%m-%d %H:%M")` (line 160). -/
def fmtPub (d : DateTime) : String :=
  pad4 d.year ++ "-" ++ pad2 d.month ++ "-" ++ pad2 d.day ++ " " ++
    pad2 d.hour ++ ":" ++ pad2 d.minute

/-- Models `updated_at.strftime("%Y-%m-%d %H:%M UTC")` (line 129). -/
def fmtUpdatedUTC (d : DateTime) : String :=
  fmtPub d ++ " UTC"

/-- Models Python `sep.join(strings)`. -/
def joinSep (sep : String) : List String → String
  | [] => ""
  | [x] => x
  | x :: y :: xs => x ++ sep ++ joinSep sep (y :: xs)

/-- Uppercase hexadecimal digit, as used by `urllib.parse.quote`. -/
def hexDigit (n : Nat) : Char :=
  "0123456789ABCDEF".data.getD n '0'

/-- UTF-8 bytes of a character, for percent-encoding. -/
def utf8Bytes (c : Char) : List Nat :=
  let v := c.toNat
  if v < 128 then [v]
  else if v < 2048 then [192 + v / 64, 128 + v % 64]
  else if v < 65536 then [224 + v / 4096, 128 + v / 64 % 64, 128 + v % 64]
  else [240 + v / 262144, 128 + v / 4096 % 64, 128 + v / 64 % 64, 128 + v % 64]

/-- Percent-encoding of one byte: `%XX` with uppercase hex. -/
def percentByte (b : Nat) : List Char :=
  ['%', hexDigit (b / 16), hexDigit (b % 16)]

/-- Characters `urllib.parse.quote(s, safe="/")` leaves unescaped: ASCII
letters and digits, `_ . - ~`, and the default-safe `/`. -/
def quoteSafe (c : Char) : Bool :=
  c.isAlpha || c.isDigit || c = '_' || c = '.' || c = '-' || c = '~' || c = '/'

/-- Models `urllib.parse.quote(s)` with the default `safe="/"`. -/
def urlQuote (s : String) : String :=
  ⟨s.data.flatMap fun c =>
    if quoteSafe c then [c] else (utf8Bytes c).flatMap percentByte⟩

/-- The fixed repository of the issue-creation deep link (line 114). -/
def REPO : String := "shu1007/github-rss"

/-- The fixed issue body template (lines 116-125); Japanese prompts for the
feed URL, name and labels, with a trailing newline. -/
def ISSUE_TEMPLATE_BODY : String :=
  "### Feed URL\n(RSSフィードのURLを入力)\n\n### Feed Name\n(表示名を入力)\n\n### Labels\n(カンマ区切りでラベルを入力。例: tech, news)\n"

/-- Models the `issue_url` computation of `generate_html` (lines 134-139). -/
def issueUrl : String :=
  "https://github.com/" ++ REPO ++ "/issues/new" ++
    "?title=" ++ urlQuote "add-feed" ++
    "&body=" ++ urlQuote ISSUE_TEMPLATE_BODY ++
    "&labels=" ++ urlQuote "add-feed"

/-- The constant "All" source toggle (line 142). -/
def allSourceButton : String :=
  "        <button class=\"filter-btn source-btn active\" data-source=\"all\">All</button>"

/-- One source toggle button (lines 144-146). -/
def sourceButton (source : String) : String :=
  "        <button class=\"filter-btn source-btn\" data-source=\"" ++ escapeHtml source ++
    "\">" ++ escapeHtml source ++ "</button>"

/-- Models `sources_html` (lines 142-147): the "All" toggle followed by one
button per distinct source, joined with newlines. -/
def sourcesHtmlOf (all_sources : List String) : String :=
  joinSep "\n" (allSourceButton :: all_sources.map sourceButton)

/-- The constant "All" label toggle (line 150). -/
def allLabelButton : String :=
  "      <button class=\"filter-btn label-btn active\" data-label=\"all\">All</button>"

/-- One label toggle button (lines 152-154). -/
def labelButton (label : String) : String :=
  "      <button class=\"filter-btn label-btn\" data-label=\"" ++ escapeHtml label ++
    "\">" ++ escapeHtml label ++ "</button>"

/-- Models `labels_html` (lines 150-155). -/
def labelsHtmlOf (all_labels : List String) : String :=
  joinSep "\n" (allLabelButton :: all_labels.map labelButton)

/-- One in-article label span (lines 162-164). -/
def labelSpan (label : String) : String :=
  "<span class=\"label\" data-filter-label=\"" ++ escapeHtml label ++ "\">" ++
    escapeHtml label ++ "</span>"

/-- Models `img_html` (lines 165-167): rendered only when `a.get("image")`
is truthy, i.e. present and non-empty. -/
def imgHtml (a : Article) : String :=
  match a.image with
  | some img =>
    if img = "" then ""
    else
      "<a href=\"" ++ escapeHtml a.link ++ "\" target=\"_blank\" rel=\"noopener\"><img class=\"thumb\" src=\"" ++
        escapeHtml img ++ "\" alt=\"\" loading=\"lazy\"></a>"
  | none => ""

/-- The lines of one article block (lines 168-177), exactly the multi-line
f-string appended to `rows`. -/
def articleBlockLines (a : Article) : List String :=
  [ "      <article class=\"entry\" data-source=\"" ++ escapeHtml a.source ++
      "\" data-labels=\"" ++ escapeHtml (joinSep " " a.labels) ++ "\">",
    "        <div class=\"meta\">",
    "          <span class=\"source\" data-filter-source=\"" ++ escapeHtml a.source ++ "\">" ++
      escapeHtml a.source ++ "</span>",
    "          " ++ joinSep " " (a.labels.map labelSpan),
    "        </div>",
    "        <h2><a href=\"" ++ escapeHtml a.link ++ "\" target=\"_blank\" rel=\"noopener\">" ++
      escapeHtml a.title ++ "</a></h2>",
    "        " ++ imgHtml a,
    "        <time>" ++ escapeHtml (fmtPub a.published) ++ "</time>",
    "        <p>" ++ escapeHtml a.summary ++ "</p>",
    "      </article>" ]

/-- One article block as a single string. -/
def articleBlock (a : Article) : String :=
  joinSep "\n" (articleBlockLines a)

/-- The "no articles" placeholder paragraph (line 179). -/
def noArticlesP : String := "      <p>記事がありません。</p>"

/-- Models `entries_html` (lines 158-179): the newline-joined article
blocks, or the placeholder when there are no rows. -/
def entriesHtmlOf (articles : List Article) : String :=
  if articles.isEmpty then noArticlesP
  else joinSep "\n" (articles.map articleBlock)

def pageLines (articles : List Article) (updated_at : DateTime) : List String :=
  [
    "<!DOCTYPE html>",
    "<html lang=\"ja\">",
    "<head>",
    "  <meta charset=\"UTF-8\">",
    "  <meta name=\"viewport\" content=\"width=device-width, initial-scale=1.0\">",
    "  <title>RSS Reader</title>",
    "  <style>",
    "    * \x7b margin: 0; padding: 0; box-sizing: border-box; \x7d",
    "    body \x7b font-family: -apple-system, BlinkMacSystemFont, \"Segoe UI\", Roboto, sans-serif; background: #f5f5f5; color: #333; line-height: 1.6; \x7d",
    "    .container \x7b max-width: 800px; margin: 0 auto; padding: 20px; \x7d",
    "    header \x7b margin-bottom: 24px; \x7d",
    "    header h1 \x7b font-size: 1.5rem; \x7d",
    "    header .updated \x7b font-size: 0.85rem; color: #888; margin-top: 4px; \x7d",
    "    .filters \x7b display: flex; flex-wrap: wrap; gap: 8px; margin-bottom: 20px; \x7d",
    "    .sources \x7b margin-bottom: 20px; \x7d",
    "    .sources summary \x7b cursor: pointer; font-size: 0.9rem; font-weight: 600; color: #555; padding: 8px 0; \x7d",
    "    .sources .source-list \x7b display: flex; flex-wrap: wrap; gap: 8px; padding-top: 10px; \x7d",
    "    .filter-btn \x7b background: #fff; border: 1px solid #ddd; border-radius: 20px; padding: 6px 16px; font-size: 0.85rem; cursor: pointer; transition: all 0.2s; \x7d",
    "    .filter-btn:hover \x7b border-color: #1a73e8; color: #1a73e8; \x7d",
    "    .filter-btn.active \x7b background: #1a73e8; color: #fff; border-color: #1a73e8; \x7d",
    "    .entry \x7b background: #fff; border-radius: 8px; padding: 16px; margin-bottom: 12px; box-shadow: 0 1px 3px rgba(0,0,0,0.08); \x7d",
    "    .entry.hidden \x7b display: none; \x7d",
    "    .thumb \x7b width: 100%; max-height: 300px; object-fit: cover; border-radius: 6px; margin: 8px 0; \x7d",
    "    .entry .meta \x7b display: flex; flex-wrap: wrap; gap: 6px; align-items: center; \x7d",
    "    .entry .source \x7b display: inline-block; background: #e8f0fe; color: #1a73e8; font-size: 0.75rem; padding: 2px 8px; border-radius: 4px; font-weight: 600; cursor: pointer; \x7d",
    "    .entry .source:hover \x7b background: #d2e3fc; \x7d",
    "    .entry .label \x7b display: inline-block; background: #f0f0f0; color: #555; font-size: 0.7rem; padding: 2px 8px; border-radius: 4px; cursor: pointer; \x7d",
    "    .entry .label:hover \x7b background: #e0e0e0; \x7d",
    "    .add-feed \x7b display: inline-block; background: #34a853; color: #fff; text-decoration: none; font-size: 0.85rem; padding: 6px 16px; border-radius: 20px; font-weight: 600; transition: background 0.2s; \x7d",
    "    .add-feed:hover \x7b background: #2d8e47; \x7d",
    "    .entry h2 \x7b font-size: 1.1rem; margin: 8px 0 4px; \x7d",
    "    .entry h2 a \x7b color: #1a1a1a; text-decoration: none; \x7d",
    "    .entry h2 a:hover \x7b text-decoration: underline; \x7d",
    "    .entry time \x7b font-size: 0.8rem; color: #888; \x7d",
    "    .entry p \x7b font-size: 0.9rem; color: #555; margin-top: 8px; \x7d",
    "  </style>",
    "</head>",
    "<body>",
    "  <div class=\"container\">",
    "    <header>",
    "      <h1>RSS Reader</h1>",
    "      <div class=\"updated\">Last updated: " ++ fmtUpdatedUTC updated_at ++ "</div>",
    "      <a class=\"add-feed\" href=\"" ++ issueUrl ++ "\" target=\"_blank\" rel=\"noopener\">+ Add Feed</a>",
    "    </header>",
    "    <details class=\"sources\">",
    "      <summary>Sources (" ++ natStr (collect_all_sources articles).length ++ ")</summary>",
    "      <div class=\"source-list\">",
    sourcesHtmlOf (collect_all_sources articles),
    "      </div>",
    "    </details>",
    "    <div class=\"filters\">",
    labelsHtmlOf (collect_all_labels articles),
    "    </div>",
    "    <main>",
    entriesHtmlOf articles,
    "    </main>",
    "  </div>",
    "  <script>",
    "    let activeSource = \x27all\x27;",
    "    let activeLabel = \x27all\x27;",
    "",
    "    function applyFilters() \x7b",
    "      document.querySelectorAll(\x27.entry\x27).forEach(entry => \x7b",
    "        const matchSource = activeSource === \x27all\x27 || entry.dataset.source === activeSource;",
    "        const matchLabel = activeLabel === \x27all\x27 || entry.dataset.labels.split(\x27 \x27).includes(activeLabel);",
    "        entry.classList.toggle(\x27hidden\x27, !(matchSource && matchLabel));",
    "      \x7d);",
    "    \x7d",
    "",
    "    document.querySelectorAll(\x27.source-btn\x27).forEach(btn => \x7b",
    "      btn.addEventListener(\x27click\x27, () => \x7b",
    "        document.querySelectorAll(\x27.source-btn\x27).forEach(b => b.classList.remove(\x27active\x27));",
    "        btn.classList.add(\x27active\x27);",
    "        activeSource = btn.dataset.source;",
    "        applyFilters();",
    "      \x7d);",
    "    \x7d);",
    "",
    "    document.querySelectorAll(\x27.label-btn\x27).forEach(btn => \x7b",
    "      btn.addEventListener(\x27click\x27, () => \x7b",
    "        document.querySelectorAll(\x27.label-btn\x27).forEach(b => b.classList.remove(\x27active\x27));",
    "        btn.classList.add(\x27active\x27);",
    "        activeLabel = btn.dataset.label;",
    "        applyFilters();",
    "      \x7d);",
    "    \x7d);",
    "",
    "    function selectSource(name) \x7b",
    "      document.querySelectorAll(\x27.source-btn\x27).forEach(b => \x7b",
    "        b.classList.toggle(\x27active\x27, b.dataset.source === name);",
    "      \x7d);",
    "      activeSource = name;",
    "      applyFilters();",
    "    \x7d",
    "",
    "    function selectLabel(name) \x7b",
    "      document.querySelectorAll(\x27.label-btn\x27).forEach(b => \x7b",
    "        b.classList.toggle(\x27active\x27, b.dataset.label === name);",
    "      \x7d);",
    "      activeLabel = name;",
    "      applyFilters();",
    "    \x7d",
    "",
    "    document.querySelectorAll(\x27[data-filter-source]\x27).forEach(el => \x7b",
    "      el.addEventListener(\x27click\x27, () => selectSource(el.dataset.filterSource));",
    "    \x7d);",
    "",
    "    document.querySelectorAll(\x27[data-filter-label]\x27).forEach(el => \x7b",
    "      el.addEventListener(\x27click\x27, () => selectLabel(el.dataset.filterLabel));",
    "    \x7d);",
    "  </script>",
    "</body>"
  ] ++ ["</html>", ""]

/-- Models `generate_html` (lines 128-294): the template f-string is the
newline-join of `pageLines`. -/
def generate_html (articles : List Article) (updated_at : DateTime) : String :=
  joinSep "\n" (pageLines articles updated_at)

/-- Scanner asserting that `pat` occurs nowhere in the text (for non-empty
`pat`): at every position, `pat` is not a prefix of the remaining text. -/
def noSub (pat : List Char) : List Char → Bool
  | [] => true
  | c :: rest => (!pat.isPrefixOf (c :: rest)) && noSub pat rest

/-- Entity bodies that may legally follow a `&` in escaped output. -/
def entityTails : List (List Char) :=
  [['a', 'm', 'p', ';'], ['l', 't', ';'], ['g', 't', ';'],
   ['q', 'u', 'o', 't', ';'], ['#', 'x', '2', '7', ';']]

/-- Checks that a character list contains no raw markup character: no `<`,
`>`, double quote or apostrophe at all, and every `&` starts one of the
five entities produced by `html.escape`. -/
def escOkL : List Char → Bool
  | [] => true
  | c :: rest =>
    if c = '<' ∨ c = '>' ∨ c = Char.ofNat 34 ∨ c = Char.ofNat 39 then false
    else if c = '&' then entityTails.any (fun e => e.isPrefixOf rest) && escOkL rest
    else escOkL rest

/-- Character-list form of the pattern every article block starts with
(`<article`), used to state that a page has no article block. -/
def articleOpenPat : List Char := ['<', 'a', 'r', 't', 'i', 'c', 'l', 'e']

/-- Sample cutoff timestamp for concrete witnesses. -/
def sampleCutoff : DateTime := ⟨2026, 10, 5, 0, 0, 0, true⟩

/-- Sample entry published after the cutoff. -/
def sampleEntryKept : RawEntry :=
  { title := some "A", link := some "http://a/1", summary := some "hello world",
    content := [], published_parsed := some ⟨2026, 10, 8, 12, 0, 0⟩,
    updated_parsed := none, enclosures := [], media_thumbnail := [], media_content := [] }

/-- Sample entry published before the cutoff. -/
def sampleEntryOld : RawEntry :=
  { title := some "B", link := some "http://a/2", summary := some "old",
    content := [], published_parsed := some ⟨2026, 9, 1, 0, 0, 0⟩,
    updated_parsed := none, enclosures := [], media_thumbnail := [], media_content := [] }

/-- Sample entry with no timestamp at all. -/
def sampleEntryNoTime : RawEntry :=
  { title := some "C", link := none, summary := none,
    content := [], published_parsed := none,
    updated_parsed := none, enclosures := [], media_thumbnail := [], media_content := [] }

/-- The article `sampleEntryKept` normalizes to for the sample feed. -/
def sampleArticleKept : Article :=
  { title := "A", link := "http://a/1", source := "Feed One", labels := ["tech"],
    published := ⟨2026, 10, 8, 12, 0, 0, true⟩, summary := "hello world", image := none }

/-- Sample parser collaborator: one good feed, every other URL raises. -/
def sampleParse : String → Except String (List RawEntry) := fun url =>
  if url = "http://feed1" then Except.ok [sampleEntryKept, sampleEntryOld, sampleEntryNoTime]
  else Except.error "connection failed"

/-- Sample good feed configuration. -/
def goodFeed : FeedConfig := ⟨"http://feed1", "Feed One", ["tech"]⟩

/-- Sample feed configuration whose fetch raises. -/
def badFeed : FeedConfig := ⟨"http://feed2", "Feed Two", ["news"]⟩

/-- Sample entry whose stripped summary is longer than 200 characters. -/
def sampleLongEntry : RawEntry :=
  { title := some "L", link := some "http://a/3",
    summary := some ("  <p>" ++ ⟨List.replicate 250 'a'⟩ ++ "</p> "),
    content := [], published_parsed := some ⟨2026, 10, 9, 0, 0, 0⟩,
    updated_parsed := none, enclosures := [], media_thumbnail := [], media_content := [] }

/-- Sample entry with both an image-typed enclosure and an inline img tag. -/
def sampleImgEntry : RawEntry :=
  { title := some "I", link := some "http://a/4",
    summary := some "<img class=\x27x\x27 src=\x27http://inline/img.png\x27>",
    content := [], published_parsed := some ⟨2026, 10, 9, 0, 0, 0⟩,
    updated_parsed := none,
    enclosures := [⟨some "image/png", some "http://enc/img.png"⟩],
    media_thumbnail := [], media_content := [] }

/-- Sample entry where the first image-typed enclosure has no href, while a
media thumbnail with a URL is available. -/
def sampleNoHrefEntry : RawEntry :=
  { title := some "N", link := some "http://a/5", summary := none,
    content := [], published_parsed := some ⟨2026, 10, 9, 0, 0, 0⟩,
    updated_parsed := none,
    enclosures := [⟨some "image/jpeg", none⟩],
    media_thumbnail := [⟨some "http://thumb/t.jpg"⟩], media_content := [] }

/-- Sample entry carrying both timestamp fields, with different values. -/
def sampleBothTimes : RawEntry :=
  { title := some "D", link := none, summary := none,
    content := [], published_parsed := some ⟨2026, 10, 7, 1, 2, 3⟩,
    updated_parsed := some ⟨2026, 10, 8, 4, 5, 6⟩, enclosures := [],
    media_thumbnail := [], media_content := [] }

/-- Sample article with markup characters in every user-supplied field. -/
def sampleNastyArticle : Article :=
  { title := "a<b>&\"q\x27t", link := "http://x/?a=1&b=<2>",
    source := "S<&>" , labels := ["l&1", "l<2>"],
    published := ⟨2026, 10, 9, 10, 30, 0, true⟩,
    summary := "sum<em>&", image := some "http://img/?q=\"<&>\"" }

/-- The article `sampleLongEntry` normalizes to: its summary is truncated
to 200 characters plus the marker. -/
def sampleLongArticle : Article :=
  { title := "L", link := "http://a/3", source := "Feed One", labels := ["tech"],
    published := ⟨2026, 10, 9, 0, 0, 0, true⟩,
    summary := ⟨List.replicate 200 'a' ++ "...".data⟩, image := none }

/-- Field-level description of a successful normalization: the article's
fields are exactly the ones the loop body of `fetch_articles` builds, and
the kept timestamp is at or after the cutoff. -/
theorem normalizeEntry_eq_some {sourceName : String} {labels : List String}
    {cutoff : DateTime} {entry : RawEntry} {a : Article}
    (h : normalizeEntry sourceName labels cutoff entry = some a) :
    resolvePublished entry = some a.published ∧ dtLe cutoff a.published ∧
    a.title = entry.title.getD "(no title)" ∧
    a.link = entry.link.getD "#" ∧
    a.source = sourceName ∧ a.labels = labels ∧
    a.summary = mkSummary (entry.summary.getD "") ∧
    a.image = extract_image entry := by
  unfold normalizeEntry at h
  cases hr : resolvePublished entry with
  | none => rw [hr] at h; exact absurd h (by simp)
  | some d =>
    rw [hr] at h
    by_cases hlt : dtLt d cutoff
    · simp [hlt] at h
    · simp only [hlt, if_neg, ite_false, Option.some.injEq] at h
      subst h
      refine ⟨rfl, Nat.not_lt.mp hlt, rfl, rfl, rfl, rfl, rfl, rfl⟩

/-- C1: For every feed configuration list and cutoff timestamp, every
Article returned by `fetch_articles` has a resolved published timestamp at
or after the cutoff, and a raw entry whose resolved timestamp is strictly
earlier than the cutoff produces no Article. -/
theorem fetch_articles_cutoff (parse : String → Except String (List RawEntry))
    (feeds : List FeedConfig) (cutoff : DateTime) :
    (∀ a ∈ fetch_articles parse feeds cutoff, dtLe cutoff a.published) ∧
    (∀ (sourceName : String) (labels : List String) (entry : RawEntry) (d : DateTime),
      resolvePublished entry = some d → dtLt d cutoff →
      normalizeEntry sourceName labels cutoff entry = none) := by
  constructor
  · intro a ha
    rw [fetch_articles, List.mem_insertionSort, collectArticles, List.mem_flatMap] at ha
    obtain ⟨feed, _, hmem⟩ := ha
    cases hp : parse feed.url with
    | error e => rw [hp] at hmem; simp at hmem
    | ok entries =>
      rw [hp, List.mem_filterMap] at hmem
      obtain ⟨entry, _, hn⟩ := hmem
      exact (normalizeEntry_eq_some hn).2.1
  · intro sourceName labels entry d hr hlt
    unfold normalizeEntry
    rw [hr]
    simp [hlt]

/-- Witness for C1: a concrete run keeping one recent article, and a
concrete entry three weeks before the cutoff that is discarded. -/
theorem fetch_articles_cutoff_witness :
    (sampleArticleKept ∈ fetch_articles sampleParse [goodFeed] sampleCutoff ∧
      dtLe sampleCutoff sampleArticleKept.published) ∧
    (resolvePublished sampleEntryOld = some ⟨2026, 9, 1, 0, 0, 0, true⟩ ∧
      dtLt (⟨2026, 9, 1, 0, 0, 0, true⟩ : DateTime) sampleCutoff ∧
      normalizeEntry "Feed One" ["tech"] sampleCutoff sampleEntryOld = none) := by
  refine ⟨⟨?_, ?_⟩, ?_, ?_, ?_⟩
  · decide
  · exact (fetch_articles_cutoff sampleParse [goodFeed] sampleCutoff).1
      sampleArticleKept (by decide)
  · decide
  · decide
  · exact (fetch_articles_cutoff sampleParse [goodFeed] sampleCutoff).2
      "Feed One" ["tech"] sampleEntryOld ⟨2026, 9, 1, 0, 0, 0, true⟩ (by decide) (by decide)

/-- C5: an entry with neither `published_parsed` nor `updated_parsed` is
silently discarded by the normalizer (an `Option` outcome, not an error);
when `published_parsed` is present it wins over `updated_parsed`; and every
resolved timestamp is timezone-aware with a UTC offset. -/
theorem normalizeEntry_timestamp_resolution (sourceName : String) (labels : List String)
    (cutoff : DateTime) (entry : RawEntry) :
    (entry.published_parsed = none → entry.updated_parsed = none →
      normalizeEntry sourceName labels cutoff entry = none) ∧
    (∀ t, entry.published_parsed = some t →
      resolvePublished entry = some (fromStructUtc t)) ∧
    (∀ d, resolvePublished entry = some d → d.tzUtc = true) := by
  refine ⟨?_, ?_, ?_⟩
  · intro h1 h2
    unfold normalizeEntry resolvePublished
    rw [h1, h2]
  · intro t ht
    unfold resolvePublished
    rw [ht]
  · intro d hd
    unfold resolvePublished at hd
    cases hp : entry.published_parsed with
    | some t => rw [hp] at hd; cases hd; rfl
    | none =>
      rw [hp] at hd
      cases hu : entry.updated_parsed with
      | some t => rw [hu] at hd; cases hd; rfl
      | none => rw [hu] at hd; cases hd

/-- Witness for C5: a concrete entry with no timestamps is discarded, and a
concrete entry carrying both fields resolves to its `published_parsed`. -/
theorem normalizeEntry_timestamp_resolution_witness :
    normalizeEntry "Feed One" ["tech"] sampleCutoff sampleEntryNoTime = none ∧
    resolvePublished sampleBothTimes = some (fromStructUtc ⟨2026, 10, 7, 1, 2, 3⟩) ∧
    (fromStructUtc ⟨2026, 10, 7, 1, 2, 3⟩).tzUtc = true := by
  refine ⟨?_, ?_, ?_⟩
  · exact (normalizeEntry_timestamp_resolution "Feed One" ["tech"] sampleCutoff
      sampleEntryNoTime).1 (by decide) (by decide)
  · exact (normalizeEntry_timestamp_resolution "Feed One" ["tech"] sampleCutoff
      sampleBothTimes).2.1 ⟨2026, 10, 7, 1, 2, 3⟩ (by decide)
  · exact (normalizeEntry_timestamp_resolution "Feed One" ["tech"] sampleCutoff
      sampleBothTimes).2.2 (fromStructUtc ⟨2026, 10, 7, 1, 2, 3⟩) (by decide)

/-- C9: a feed whose parse collaborator raises is skipped: the run yields
exactly what it would yield without that feed, so all later feeds are still
processed and the run never aborts. -/
theorem fetch_articles_skips_bad_feed (parse : String → Except String (List RawEntry))
    (fs1 : List FeedConfig) (bad : FeedConfig) (fs2 : List FeedConfig)
    (cutoff : DateTime) (e : String) (hbad : parse bad.url = Except.error e) :
    fetch_articles parse (fs1 ++ bad :: fs2) cutoff =
      fetch_articles parse (fs1 ++ fs2) cutoff := by
  unfold fetch_articles collectArticles
  rw [List.flatMap_append, List.flatMap_append, List.flatMap_cons, hbad]
  simp

/-- Witness for C9: the first feed of a concrete two-feed list raises, and
the run equals the one-feed run; the good feed's article is still there. -/
theorem fetch_articles_skips_bad_feed_witness :
    sampleParse badFeed.url = Except.error "connection failed" ∧
    fetch_articles sampleParse [badFeed, goodFeed] sampleCutoff =
      fetch_articles sampleParse [goodFeed] sampleCutoff ∧
    sampleArticleKept ∈ fetch_articles sampleParse [badFeed, goodFeed] sampleCutoff := by
  refine ⟨by rfl, ?_, by decide⟩
  exact fetch_articles_skips_bad_feed sampleParse [] badFeed [goodFeed] sampleCutoff
    "connection failed" (by rfl)

/-- Filtering one publication timestamp commutes with an ordered insert:
elements strictly newer than the inserted one are passed over, so they
cannot share its timestamp. -/
theorem filter_pub_orderedInsert (t : DateTime) (x : Article) (l : List Article) :
    (List.orderedInsert articleOrder x l).filter (fun a => a.published == t) =
      if x.published == t then x :: l.filter (fun a => a.published == t)
      else l.filter (fun a => a.published == t) := by
  induction l with
  | nil =>
    by_cases hx : x.published == t <;>
      simp [List.orderedInsert, List.filter_cons, hx]
  | cons y ys ih =>
    rw [List.orderedInsert]
    by_cases hxy : articleOrder x y
    · rw [if_pos hxy]
      by_cases hx : x.published == t <;> simp [List.filter_cons, hx]
    · rw [if_neg hxy]
      by_cases hx : x.published == t
      · have hy : (y.published == t) = false := by
          unfold articleOrder dtLe at hxy
          have hlt : dtCode x.published < dtCode y.published := Nat.lt_of_not_le hxy
          have hxt : x.published = t := by simpa using hx
          by_contra hyt
          have : y.published = t := by simpa using Bool.of_not_eq_false hyt
          rw [hxt, this] at hlt
          omega
        simp [List.filter_cons, hx, hy, ih]
      · by_cases hy : y.published == t <;> simp [List.filter_cons, hx, hy, ih]

/-- Stability of the descending sort: the sublist of articles sharing one
publication timestamp is unchanged by the sort. -/
theorem filter_pub_insertionSort (t : DateTime) (l : List Article) :
    (List.insertionSort articleOrder l).filter (fun a => a.published == t) =
      l.filter (fun a => a.published == t) := by
  induction l with
  | nil => rfl
  | cons x xs ih =>
    rw [List.insertionSort, filter_pub_orderedInsert, ih]
    by_cases hx : x.published == t <;> simp [List.filter_cons, hx]

/-- C2: the article collection returned by `fetch_articles` is sorted
non-increasing by published timestamp, and articles with equal timestamps
keep the relative order in which they were encountered during aggregation:
for every timestamp, filtering it out of the sorted output yields exactly
the same list as filtering it out of the pre-sort collection. -/
theorem fetch_articles_sorted_stable (parse : String → Except String (List RawEntry))
    (feeds : List FeedConfig) (cutoff : DateTime) :
    (fetch_articles parse feeds cutoff).Pairwise
      (fun a b => dtLe b.published a.published) ∧
    ∀ t : DateTime,
      (fetch_articles parse feeds cutoff).filter (fun a => a.published == t) =
        (collectArticles parse feeds cutoff).filter (fun a => a.published == t) := by
  constructor
  · exact List.sorted_insertionSort articleOrder (collectArticles parse feeds cutoff)
  · intro t
    exact filter_pub_insertionSort t (collectArticles parse feeds cutoff)

/-- Totality of the codepoint-lexicographic comparison. -/
theorem lexLe_total (a : List Char) : ∀ b : List Char, lexLe a b = true ∨ lexLe b a = true := by
  induction a with
  | nil => intro b; exact Or.inl rfl
  | cons x as ih =>
    intro b
    cases b with
    | nil => exact Or.inr rfl
    | cons y bs =>
      unfold lexLe
      rcases Nat.lt_trichotomy x.toNat y.toNat with h | h | h
      · left; rw [if_pos h]
      · rw [if_neg (by omega), if_neg (by omega), if_neg (by omega), if_neg (by omega)]
        exact ih bs
      · right; rw [if_pos h]

/-- Transitivity of the codepoint-lexicographic comparison. -/
theorem lexLe_trans {a : List Char} :
    ∀ {b c : List Char}, lexLe a b = true → lexLe b c = true → lexLe a c = true := by
  induction a with
  | nil => intro b c _ _; rfl
  | cons x as ih =>
    intro b c h1 h2
    cases b with
    | nil => simp [lexLe] at h1
    | cons y bs =>
      cases c with
      | nil => simp [lexLe] at h2
      | cons z cs =>
        unfold lexLe at h1 h2 ⊢
        split_ifs at h1 h2 ⊢ <;>
          first
          | rfl
          | omega
          | exact ih h1 h2

/-- C6: `collect_all_labels` returns the distinct labels flattened across
all articles, duplicate-free and lexicographically sorted, and
`collect_all_sources` likewise returns the distinct source names. -/
theorem collect_indexes_sorted_distinct (articles : List Article) :
    ((collect_all_labels articles).Nodup ∧
      (collect_all_labels articles).Pairwise strLe ∧
      ∀ s, s ∈ collect_all_labels articles ↔ ∃ a ∈ articles, s ∈ a.labels) ∧
    (collect_all_sources articles).Nodup ∧
      (collect_all_sources articles).Pairwise strLe ∧
      ∀ s, s ∈ collect_all_sources articles ↔ ∃ a ∈ articles, a.source = s := by
  have htot : IsTotal String strLe := ⟨fun a b => lexLe_total a.data b.data⟩
  have htrans : IsTrans String strLe := ⟨fun _ _ _ h1 h2 => lexLe_trans h1 h2⟩
  refine ⟨⟨?_, ?_, ?_⟩, ?_, ?_, ?_⟩
  · exact (List.perm_insertionSort strLe _).nodup_iff.mpr (List.nodup_dedup _)
  · exact @List.sorted_insertionSort String strLe _ htot htrans _
  · intro s
    rw [collect_all_labels, List.mem_insertionSort, List.mem_dedup, List.mem_flatMap]
  · exact (List.perm_insertionSort strLe _).nodup_iff.mpr (List.nodup_dedup _)
  · exact @List.sorted_insertionSort String strLe _ htot htrans _
  · intro s
    rw [collect_all_sources, List.mem_insertionSort, List.mem_dedup, List.mem_map]

/-- C3: a kept article's summary is the raw summary with every tag span
removed and whitespace trimmed; when that text exceeds 200 characters the
stored summary is exactly its first 200 characters followed by the marker
(length 203, a 200-character prefix of the text plus the marker), otherwise
it is stored unchanged. -/
theorem article_summary_truncation (sourceName : String) (labels : List String)
    (cutoff : DateTime) (entry : RawEntry) (a : Article)
    (h : normalizeEntry sourceName labels cutoff entry = some a) :
    a.summary = mkSummary (entry.summary.getD "") ∧
    (200 < (trimWS (strip_html (entry.summary.getD "")).data).length →
      (mkSummary (entry.summary.getD "")).data =
        (trimWS (strip_html (entry.summary.getD "")).data).take 200 ++ "...".data ∧
      (mkSummary (entry.summary.getD "")).length = 203 ∧
      (trimWS (strip_html (entry.summary.getD "")).data).take 200 <+:
        trimWS (strip_html (entry.summary.getD "")).data) ∧
    ((trimWS (strip_html (entry.summary.getD "")).data).length ≤ 200 →
      mkSummary (entry.summary.getD "") =
        ⟨trimWS (strip_html (entry.summary.getD "")).data⟩) := by
  refine ⟨(normalizeEntry_eq_some h).2.2.2.2.2.2.1, ?_, ?_⟩
  · intro hlen
    refine ⟨?_, ?_, List.take_prefix 200 _⟩
    · rw [mkSummary]
      simp only [if_pos hlen]
    · rw [mkSummary]
      simp only [if_pos hlen]
      show ((trimWS (strip_html (entry.summary.getD "")).data).take 200 ++ "...".data).length = 203
      rw [List.length_append, List.length_take]
      simp
      omega
  · intro hlen
    rw [mkSummary]
    simp only [if_neg (by omega : ¬ 200 < (trimWS (strip_html (entry.summary.getD "")).data).length)]

/-- Witness for C3: a concrete entry whose stripped summary has 250
characters is truncated to the 200-character prefix plus the marker. -/
theorem article_summary_truncation_witness :
    normalizeEntry "Feed One" ["tech"] sampleCutoff sampleLongEntry = some sampleLongArticle ∧
    sampleLongArticle.summary = mkSummary (sampleLongEntry.summary.getD "") ∧
    (mkSummary (sampleLongEntry.summary.getD "")).length = 203 := by
  have h : normalizeEntry "Feed One" ["tech"] sampleCutoff sampleLongEntry =
      some sampleLongArticle := by decide
  have hc := article_summary_truncation "Feed One" ["tech"] sampleCutoff
    sampleLongEntry sampleLongArticle h
  exact ⟨h, hc.1, (hc.2.1 (by decide)).2.1⟩

/-- C4: `extract_image` tries its four strategies in strict order and
returns the result of the first that succeeds: a matching enclosure ends
the search (its href is returned even when an inline img is available in
the summary), then media thumbnails, then media content, then the inline
img pattern in the summary and first content block; when everything fails
the result is the absence marker. -/
theorem extract_image_strategy_order (entry : RawEntry) :
    (∀ enc, entry.enclosures.find? encIsImage = some enc →
      extract_image entry = enc.href) ∧
    (∀ enc u, entry.enclosures.find? encIsImage = some enc → enc.href = some u →
      reSearchImg (summaryText entry).data ≠ none →
      extract_image entry = some u) ∧
    (∀ mt, entry.enclosures.find? encIsImage = none →
      entry.media_thumbnail.find? thumbHasUrl = some mt →
      extract_image entry = mt.url) ∧
    (∀ mc, entry.enclosures.find? encIsImage = none →
      entry.media_thumbnail.find? thumbHasUrl = none →
      entry.media_content.find? mcIsImage = some mc →
      extract_image entry = mc.url) ∧
    (∀ cap, entry.enclosures.find? encIsImage = none →
      entry.media_thumbnail.find? thumbHasUrl = none →
      entry.media_content.find? mcIsImage = none →
      reSearchImg (summaryText entry).data = some cap →
      extract_image entry = some ⟨cap⟩) ∧
    (∀ cap, entry.enclosures.find? encIsImage = none →
      entry.media_thumbnail.find? thumbHasUrl = none →
      entry.media_content.find? mcIsImage = none →
      reSearchImg (summaryText entry).data = none →
      reSearchImg (contentText entry).data = some cap →
      extract_image entry = some ⟨cap⟩) ∧
    (entry.enclosures.find? encIsImage = none →
      entry.media_thumbnail.find? thumbHasUrl = none →
      entry.media_content.find? mcIsImage = none →
      reSearchImg (summaryText entry).data = none →
      reSearchImg (contentText entry).data = none →
      extract_image entry = none) := by
  refine ⟨?_, ?_, ?_, ?_, ?_, ?_, ?_⟩
  · intro enc h1
    unfold extract_image
    rw [h1]
  · intro enc u h1 h2 _
    unfold extract_image
    rw [h1]
    exact h2
  · intro mt h1 h2
    unfold extract_image
    rw [h1, h2]
  · intro mc h1 h2 h3
    unfold extract_image
    rw [h1, h2, h3]
  · intro cap h1 h2 h3 h4
    unfold extract_image
    rw [h1, h2, h3, h4]
  · intro cap h1 h2 h3 h4 h5
    unfold extract_image
    rw [h1, h2, h3, h4, h5]
  · intro h1 h2 h3 h4 h5
    unfold extract_image
    rw [h1, h2, h3, h4, h5]

/-- Witness for C4: a concrete entry carrying both an image-typed enclosure
and an inline img in its summary resolves to the enclosure URL, and a
concrete entry with no image data at all resolves to none. -/
theorem extract_image_strategy_order_witness :
    sampleImgEntry.enclosures.find? encIsImage =
      some ⟨some "image/png", some "http://enc/img.png"⟩ ∧
    reSearchImg (summaryText sampleImgEntry).data = some "http://inline/img.png".data ∧
    extract_image sampleImgEntry = some "http://enc/img.png" ∧
    extract_image sampleEntryNoTime = none := by
  refine ⟨by decide, by decide, ?_, ?_⟩
  · exact (extract_image_strategy_order sampleImgEntry).2.1
      ⟨some "image/png", some "http://enc/img.png"⟩ "http://enc/img.png"
      (by decide) (by decide) (by decide)
  · exact (extract_image_strategy_order sampleEntryNoTime).2.2.2.2.2.2
      (by decide) (by decide) (by decide) (by decide) (by decide)

/-- C10: when the first image-typed enclosure has no href, `extract_image`
returns the absence marker immediately, without trying the media-thumbnail,
media-content or inline-img strategies, whatever they would yield. -/
theorem extract_image_enclosure_without_href (entry : RawEntry) (enc : Enclosure)
    (h1 : entry.enclosures.find? encIsImage = some enc) (h2 : enc.href = none) :
    extract_image entry = none := by
  unfold extract_image
  simp [h1, h2]

/-- Witness for C10: a concrete entry whose only enclosure is image-typed
but href-less yields none, even though its media thumbnail has a URL. -/
theorem extract_image_enclosure_without_href_witness :
    sampleNoHrefEntry.enclosures.find? encIsImage = some ⟨some "image/jpeg", none⟩ ∧
    sampleNoHrefEntry.media_thumbnail.find? thumbHasUrl = some ⟨some "http://thumb/t.jpg"⟩ ∧
    extract_image sampleNoHrefEntry = none := by
  refine ⟨by decide, by decide, ?_⟩
  exact extract_image_enclosure_without_href sampleNoHrefEntry
    ⟨some "image/jpeg", none⟩ (by decide) (by decide)

/-- Safe characters pass through `escOkL`. -/
theorem escOkL_cons_safe {c : Char} (h1 : c ≠ '<') (h2 : c ≠ '>')
    (h3 : c ≠ Char.ofNat 34) (h4 : c ≠ Char.ofNat 39) (h5 : c ≠ '&')
    (rest : List Char) : escOkL (c :: rest) = escOkL rest := by
  simp [escOkL, h1, h2, h3, h4, h5]

/-- One escaped character keeps the output free of raw markup. -/
theorem escOkL_escapeChar (c : Char) (rest : List Char) (h : escOkL rest = true) :
    escOkL (escapeChar c ++ rest) = true := by
  by_cases h1 : c = '&'
  · subst h1
    simp [escapeChar, escOkL, entityTails, List.isPrefixOf, h]
  · by_cases h2 : c = '<'
    · subst h2
      simp [escapeChar, escOkL, entityTails, List.isPrefixOf, h]
    · by_cases h3 : c = '>'
      · subst h3
        simp [escapeChar, escOkL, entityTails, List.isPrefixOf, h]
      · by_cases h4 : c = Char.ofNat 34
        · subst h4
          simp [escapeChar, escOkL, entityTails, List.isPrefixOf, h]
        · by_cases h5 : c = Char.ofNat 39
          · subst h5
            simp [escapeChar, escOkL, entityTails, List.isPrefixOf, h]
          · have he : escapeChar c = [c] := by
              simp [escapeChar, h1, h2, h3, h4, h5]
            rw [he, List.singleton_append, escOkL_cons_safe h2 h3 h4 h5 h1]
            exact h

/-- Escaped text never contains raw markup characters. -/
theorem escOkL_escape (cs : List Char) : escOkL (cs.flatMap escapeChar) = true := by
  induction cs with
  | nil => rfl
  | cons c rest ih =>
    rw [List.flatMap_cons]
    exact escOkL_escapeChar c _ ih

/-- `html.escape` output never contains raw markup characters. -/
theorem escOkL_escapeHtml (s : String) : escOkL (escapeHtml s).data = true :=
  escOkL_escape s.data

/-- Unfolding of `joinSep` over a non-empty tail. -/
theorem joinSep_cons_ne (sep x : String) {l : List String} (h : l ≠ []) :
    joinSep sep (x :: l) = x ++ sep ++ joinSep sep l := by
  cases l with
  | nil => exact absurd rfl h
  | cons y ys => rfl

/-- Every element of a joined list occurs inside the join. -/
theorem joinSep_mem_infix (sep : String) :
    ∀ (l : List String) (s : String), s ∈ l → s.data <:+: (joinSep sep l).data := by
  intro l
  induction l with
  | nil => intro s h; cases h
  | cons x xs ih =>
    intro s hs
    cases xs with
    | nil =>
      have hsx : s = x := by
        cases hs with
        | head => rfl
        | tail _ h => cases h
      subst hsx
      exact List.infix_refl _
    | cons y ys =>
      rw [joinSep_cons_ne sep x (by simp), String.data_append, String.data_append]
      cases hs with
      | head => exact ⟨[], sep.data ++ (joinSep sep (y :: ys)).data, by simp⟩
      | tail _ h =>
        obtain ⟨pre, post, hsplit⟩ := ih s h
        exact ⟨x.data ++ sep.data ++ pre, post, by rw [← hsplit]; simp⟩

/-- The join of a non-empty tail segment is a suffix of the whole join. -/
theorem joinSep_suffix_app (sep : String) (l₂ : List String) (h : l₂ ≠ []) :
    ∀ l₁ : List String, (joinSep sep l₂).data <:+ (joinSep sep (l₁ ++ l₂)).data := by
  intro l₁
  induction l₁ with
  | nil => exact List.suffix_refl _
  | cons a l₁ ih =>
    have hne : l₁ ++ l₂ ≠ [] := by
      intro hx
      exact h (List.append_eq_nil.mp hx).2
    rw [List.cons_append, joinSep_cons_ne sep a hne, String.data_append, String.data_append]
    obtain ⟨pre, hpre⟩ := ih
    exact ⟨(a.data ++ sep.data) ++ pre, by rw [← hpre]; simp⟩

/-- A prefix test cannot look past a separator made of characters foreign
to the pattern. -/
theorem isPrefixOf_append_disjoint (u y : List Char) (hu : u ≠ []) :
    ∀ (x pat : List Char), (∀ c ∈ u, c ∉ pat) →
      pat.isPrefixOf (x ++ u ++ y) = pat.isPrefixOf x := by
  intro x
  induction x with
  | nil =>
    intro pat hd
    cases pat with
    | nil => simp [List.isPrefixOf]
    | cons p ps =>
      cases u with
      | nil => exact absurd rfl hu
      | cons a us =>
        simp only [List.nil_append, List.cons_append]
        have hne : p ≠ a := by
          intro hpa
          exact hd a (List.mem_cons_self a us) (by rw [← hpa]; exact List.mem_cons_self p ps)
        simp [List.isPrefixOf, hne]
  | cons b xs ih =>
    intro pat hd
    cases pat with
    | nil => simp [List.isPrefixOf]
    | cons p ps =>
      simp only [List.cons_append, List.isPrefixOf, List.append_eq]
      rw [ih ps (fun c hc hmem => hd c hc (List.mem_cons_of_mem p hmem))]

/-- A pattern cannot start inside text made of characters foreign to it. -/
theorem noSub_append_left_disjoint (pat y : List Char) (hp : pat ≠ []) :
    ∀ u : List Char, (∀ c ∈ u, c ∉ pat) → noSub pat (u ++ y) = noSub pat y := by
  intro u
  induction u with
  | nil => intro _; rfl
  | cons a us ih =>
    intro hd
    simp only [List.cons_append, noSub, List.append_eq]
    have hfalse : pat.isPrefixOf (a :: (us ++ y)) = false := by
      cases pat with
      | nil => exact absurd rfl hp
      | cons p ps =>
        have hne : p ≠ a := by
          intro hpa
          exact hd a (List.mem_cons_self a us) (by rw [← hpa]; exact List.mem_cons_self p ps)
        simp [List.isPrefixOf, hne]
    rw [hfalse]
    simp only [Bool.not_false, Bool.true_and]
    exact ih (fun c hc => hd c (List.mem_cons_of_mem a hc))

/-- Occurrence scan across a separator foreign to the pattern splits. -/
theorem noSub_append_disjoint (pat u y : List Char) (hp : pat ≠ []) (hu : u ≠ [])
    (hd : ∀ c ∈ u, c ∉ pat) :
    ∀ x : List Char, noSub pat (x ++ u ++ y) = (noSub pat x && noSub pat y) := by
  intro x
  induction x with
  | nil =>
    simp only [List.nil_append]
    rw [noSub_append_left_disjoint pat y hp u hd]
    simp [noSub]
  | cons b xs ih =>
    have hpre := isPrefixOf_append_disjoint u y hu (b :: xs) pat hd
    simp only [List.cons_append] at hpre ⊢
    simp only [noSub, hpre, ih, Bool.and_assoc]

/-- A newline-join contains the pattern nowhere iff no line contains it,
when the separator's characters are foreign to the pattern. -/
theorem noSub_joinSep (pat : List Char) (sep : String) (hp : pat ≠ [])
    (hs : sep.data ≠ []) (hd : ∀ c ∈ sep.data, c ∉ pat) :
    ∀ l : List String, noSub pat (joinSep sep l).data = l.all (fun x => noSub pat x.data) := by
  intro l
  induction l with
  | nil => rfl
  | cons x xs ih =>
    cases xs with
    | nil => simp [joinSep, List.all_cons, noSub]
    | cons y ys =>
      rw [joinSep_cons_ne sep x (by simp), String.data_append, String.data_append,
        noSub_append_disjoint pat sep.data (joinSep sep (y :: ys)).data hp hs hd x.data,
        ih]
      simp [List.all_cons]

/-- Decimal rendering produces only digit characters. -/
theorem natDigitsAux_digits :
    ∀ (fuel n : Nat) (ch : Char), ch ∈ natDigitsAux fuel n → ch.isDigit = true := by
  intro fuel
  induction fuel with
  | zero => intro n ch h; cases h
  | succ f ih =>
    intro n ch h
    rw [natDigitsAux] at h
    by_cases hn : n < 10
    · rw [if_pos hn] at h
      have hch : ch = Char.ofNat (48 + n) := by
        cases h with
        | head => rfl
        | tail _ h2 => cases h2
      subst hch
      interval_cases n <;> decide
    · rw [if_neg hn] at h
      rcases List.mem_append.mp h with h1 | h2
      · exact ih (n / 10) ch h1
      · have hch : ch = Char.ofNat (48 + n % 10) := by
          cases h2 with
          | head => rfl
          | tail _ h3 => cases h3
        subst hch
        have hm : n % 10 < 10 := Nat.mod_lt _ (by omega)
        set k := n % 10 with hk
        interval_cases k <;> decide

/-- Characters of `natStr` are digits. -/
theorem natStr_digits (n : Nat) (ch : Char) (h : ch ∈ (natStr n).data) :
    ch.isDigit = true :=
  natDigitsAux_digits (n + 1) n ch h

/-- Characters of `pad2` are digits. -/
theorem pad2_digits (n : Nat) (ch : Char) (h : ch ∈ (pad2 n).data) :
    ch.isDigit = true := by
  rw [pad2] at h
  by_cases hn : n < 10
  · rw [if_pos hn, String.data_append] at h
    rcases List.mem_append.mp h with h1 | h2
    · have h0 : ("0" : String).data = ['0'] := rfl
      rw [h0] at h1
      have : ch = '0' := by
        cases h1 with
        | head => rfl
        | tail _ h3 => cases h3
      subst this
      decide
    · exact natStr_digits n ch h2
  · rw [if_neg hn] at h
    exact natStr_digits n ch h

/-- Characters of `pad4` are digits. -/
theorem pad4_digits (n : Nat) (ch : Char) (h : ch ∈ (pad4 n).data) :
    ch.isDigit = true := by
  have hz : ∀ z : String, z.data.all Char.isDigit = true →
      ch ∈ (z ++ natStr n).data → ch.isDigit = true := by
    intro z hz hm
    rw [String.data_append] at hm
    rcases List.mem_append.mp hm with h1 | h2
    · exact List.all_eq_true.mp hz ch h1
    · exact natStr_digits n ch h2
  rw [pad4] at h
  by_cases h1 : n < 10
  · rw [if_pos h1] at h
    exact hz "000" (by decide) h
  · rw [if_neg h1] at h
    by_cases h2 : n < 100
    · rw [if_pos h2] at h
      exact hz "00" (by decide) h
    · rw [if_neg h2] at h
      by_cases h3 : n < 1000
      · rw [if_pos h3] at h
        exact hz "0" (by decide) h
      · rw [if_neg h3] at h
        exact natStr_digits n ch h

/-- Character inventory of the "Last updated" timestamp text. -/
theorem fmtUpdatedUTC_chars (d : DateTime) (ch : Char)
    (h : ch ∈ (fmtUpdatedUTC d).data) :
    ch.isDigit = true ∨ ch ∈ ['-', ' ', ':', 'U', 'T', 'C'] := by
  have hdash : ("-" : String).data = ['-'] := rfl
  have hsp : (" " : String).data = [' '] := rfl
  have hcol : (":" : String).data = [':'] := rfl
  have hutc : (" UTC" : String).data = [' ', 'U', 'T', 'C'] := rfl
  rw [fmtUpdatedUTC, String.data_append] at h
  rcases List.mem_append.mp h with h | h
  · rw [fmtPub] at h
    simp only [String.data_append] at h
    rcases List.mem_append.mp h with h | hmi
    · rcases List.mem_append.mp h with h | hco
      · rcases List.mem_append.mp h with h | hho
        · rcases List.mem_append.mp h with h | hspc
          · rcases List.mem_append.mp h with h | hda
            · rcases List.mem_append.mp h with h | hd2
              · rcases List.mem_append.mp h with h | hmo
                · rcases List.mem_append.mp h with h | hd1
                  · exact Or.inl (pad4_digits d.year ch h)
                  · right
                    cases hd1 with
                    | head => decide
                    | tail _ h3 => cases h3
                · exact Or.inl (pad2_digits d.month ch hmo)
              · right
                cases hd2 with
                | head => decide
                | tail _ h3 => cases h3
            · exact Or.inl (pad2_digits d.day ch hda)
          · right
            cases hspc with
            | head => decide
            | tail _ h3 => cases h3
        · exact Or.inl (pad2_digits d.hour ch hho)
      · right
        cases hco with
        | head => decide
        | tail _ h3 => cases h3
    · exact Or.inl (pad2_digits d.minute ch hmi)
  · rw [hutc] at h
    right
    rcases h with _ | ⟨_, _ | ⟨_, _ | ⟨_, _ | ⟨_, h⟩⟩⟩⟩ <;> first | decide | cases h

/-- The "Last updated" timestamp text is never empty. -/
theorem fmtUpdatedUTC_ne_nil (d : DateTime) : (fmtUpdatedUTC d).data ≠ [] := by
  rw [fmtUpdatedUTC, String.data_append]
  intro h
  have h2 := (List.append_eq_nil.mp h).2
  have hutc : (" UTC" : String).data = [' ', 'U', 'T', 'C'] := rfl
  rw [hutc] at h2
  cases h2

/-- Timestamp text characters never occur in the article-block pattern. -/
theorem fmtUpdatedUTC_disjoint_articleOpen (d : DateTime) :
    ∀ ch ∈ (fmtUpdatedUTC d).data, ch ∉ articleOpenPat := by
  intro ch h hmem
  have hclass := fmtUpdatedUTC_chars d ch h
  have hcases : ch = '<' ∨ ch = 'a' ∨ ch = 'r' ∨ ch = 't' ∨ ch = 'i' ∨ ch = 'c' ∨
      ch = 'l' ∨ ch = 'e' := by
    simpa [articleOpenPat] using hmem
  rcases hcases with rfl | rfl | rfl | rfl | rfl | rfl | rfl | rfl <;>
    rcases hclass with hcl | hcl <;> revert hcl <;> decide

/-- The first line of a multi-line join is a prefix of the join. -/
theorem joinSep_head_prefix (sep x y : String) (ys : List String) :
    x.data <+: (joinSep sep (x :: y :: ys)).data := by
  rw [joinSep_cons_ne sep x (by simp), String.data_append, String.data_append]
  exact ⟨sep.data ++ (joinSep sep (y :: ys)).data, by simp⟩

/-- C8: for an empty article collection the rendered page shows the
literal "no articles" placeholder, contains no article block, its source
and label filter bars are exactly the single "All" toggle each, and the
page is still a complete HTML document with the doctype prefix and the
closing html tag. -/
theorem generate_html_empty (updated_at : DateTime) :
    entriesHtmlOf [] = noArticlesP ∧
    noArticlesP.data <:+: (generate_html [] updated_at).data ∧
    noSub articleOpenPat (generate_html [] updated_at).data = true ∧
    sourcesHtmlOf (collect_all_sources []) = allSourceButton ∧
    labelsHtmlOf (collect_all_labels []) = allLabelButton ∧
    "<!DOCTYPE html>".data <+: (generate_html [] updated_at).data ∧
    "</html>\n".data <:+ (generate_html [] updated_at).data := by
  have hro : entriesHtmlOf ([] : List Article) = noArticlesP := rfl
  refine ⟨hro, ?_, ?_, ?_, ?_, ?_, ?_⟩
  · have hmem : entriesHtmlOf [] ∈ pageLines [] updated_at := by
      unfold pageLines
      apply List.mem_append_left
      repeat first
        | exact List.mem_cons_self _ _
        | apply List.mem_cons_of_mem
    have hinf := joinSep_mem_infix "\n" (pageLines [] updated_at) (entriesHtmlOf []) hmem
    rw [hro] at hinf
    exact hinf
  · have hupd : noSub articleOpenPat
        ("      <div class=\"updated\">Last updated: " ++ fmtUpdatedUTC updated_at ++
          "</div>").data = true := by
      rw [String.data_append, String.data_append,
        noSub_append_disjoint articleOpenPat (fmtUpdatedUTC updated_at).data
          ("</div>" : String).data (by decide) (fmtUpdatedUTC_ne_nil updated_at)
          (fmtUpdatedUTC_disjoint_articleOpen updated_at)]
      decide
    rw [generate_html,
      noSub_joinSep articleOpenPat "\n" (by decide) (by decide) (by decide)]
    unfold pageLines
    simp only [List.all_append, List.all_cons, List.all_nil, hupd]
    decide
  · rfl
  · rfl
  · rw [generate_html]
    unfold pageLines
    simp only [List.cons_append]
    exact joinSep_head_prefix "\n" _ _ _
  · have heq : ("</html>\n" : String).data = (joinSep "\n" ["</html>", ""]).data := rfl
    rw [generate_html, heq]
    unfold pageLines
    exact joinSep_suffix_app "\n" ["</html>", ""] (by simp) _

/-- Middle piece of a three-part concatenation is an infix. -/
theorem infix_mid3 (s1 m s2 : String) : m.data <:+: (s1 ++ m ++ s2).data := by
  refine ⟨s1.data, s2.data, ?_⟩
  simp [String.data_append, List.append_assoc]

/-- First interpolated piece of a five-part concatenation is an infix. -/
theorem infix_m1_of5 (s1 m1 s2 m2 s3 : String) :
    m1.data <:+: (s1 ++ m1 ++ s2 ++ m2 ++ s3).data := by
  refine ⟨s1.data, (s2 ++ m2 ++ s3).data, ?_⟩
  simp [String.data_append, List.append_assoc]

/-- Second interpolated piece of a five-part concatenation is an infix. -/
theorem infix_m2_of5 (s1 m1 s2 m2 s3 : String) :
    m2.data <:+: (s1 ++ m1 ++ s2 ++ m2 ++ s3).data := by
  refine ⟨(s1 ++ m1 ++ s2).data, s3.data, ?_⟩
  simp [String.data_append, List.append_assoc]

/-- Trailing piece of a two-part concatenation is an infix. -/
theorem infix_last2 (s m : String) : m.data <:+: (s ++ m).data := by
  refine ⟨s.data, [], ?_⟩
  simp [String.data_append]

/-- An infix of the right string is an infix of the concatenation. -/
theorem infix_str_left (s x : String) {m : List Char} (h : m <:+: x.data) :
    m <:+: (s ++ x).data := by
  obtain ⟨pre, post, heq⟩ := h
  exact ⟨s.data ++ pre, post, by rw [String.data_append, ← heq]; simp⟩

/-- C7: every user-supplied string interpolated into the page (title,
summary, source name, each label, link and image URL) is embedded through
`html.escape`: its escaped form appears in the rendered page, and that
escaped form contains no raw `<`, `>`, quote or apostrophe, while every
`&` in it begins an entity. -/
theorem generate_html_escapes_user_fields (articles : List Article)
    (updated_at : DateTime) (a : Article) (ha : a ∈ articles) :
    (escOkL (escapeHtml a.title).data = true ∧
      (escapeHtml a.title).data <:+: (generate_html articles updated_at).data) ∧
    (escOkL (escapeHtml a.summary).data = true ∧
      (escapeHtml a.summary).data <:+: (generate_html articles updated_at).data) ∧
    (escOkL (escapeHtml a.source).data = true ∧
      (escapeHtml a.source).data <:+: (generate_html articles updated_at).data) ∧
    (escOkL (escapeHtml a.link).data = true ∧
      (escapeHtml a.link).data <:+: (generate_html articles updated_at).data) ∧
    (∀ l ∈ a.labels, escOkL (escapeHtml l).data = true ∧
      (escapeHtml l).data <:+: (generate_html articles updated_at).data) ∧
    (∀ u, a.image = some u → escOkL (escapeHtml u).data = true ∧
      (escapeHtml u).data <:+: (generate_html articles updated_at).data) := by
  have hne : ¬ (articles.isEmpty = true) := by
    cases articles with
    | nil => cases ha
    | cons x xs => simp
  have hent : (articleBlock a).data <:+: (entriesHtmlOf articles).data := by
    rw [entriesHtmlOf, if_neg hne]
    exact joinSep_mem_infix "\n" _ _ (List.mem_map_of_mem articleBlock ha)
  have hpmem : entriesHtmlOf articles ∈ pageLines articles updated_at := by
    unfold pageLines
    apply List.mem_append_left
    repeat first
      | exact List.mem_cons_self _ _
      | apply List.mem_cons_of_mem
  have hpage : (entriesHtmlOf articles).data <:+: (generate_html articles updated_at).data := by
    rw [generate_html]
    exact joinSep_mem_infix "\n" _ _ hpmem
  have hblk : (articleBlock a).data <:+: (generate_html articles updated_at).data :=
    hent.trans hpage
  have hline : ∀ s ∈ articleBlockLines a, s.data <:+: (articleBlock a).data := by
    intro s hs
    exact joinSep_mem_infix "\n" _ _ hs
  refine ⟨⟨escOkL_escapeHtml _, ?_⟩, ⟨escOkL_escapeHtml _, ?_⟩, ⟨escOkL_escapeHtml _, ?_⟩,
    ⟨escOkL_escapeHtml _, ?_⟩, ?_, ?_⟩
  · refine ((infix_m2_of5 "        <h2><a href=\"" (escapeHtml a.link)
      "\" target=\"_blank\" rel=\"noopener\">" (escapeHtml a.title) "</a></h2>").trans
      ?_).trans hblk
    apply hline
    unfold articleBlockLines
    exact List.mem_cons_of_mem _ (List.mem_cons_of_mem _ (List.mem_cons_of_mem _
      (List.mem_cons_of_mem _ (List.mem_cons_of_mem _ (List.mem_cons_self _ _)))))
  · refine ((infix_mid3 "        <p>" (escapeHtml a.summary) "</p>").trans ?_).trans hblk
    apply hline
    unfold articleBlockLines
    exact List.mem_cons_of_mem _ (List.mem_cons_of_mem _ (List.mem_cons_of_mem _
      (List.mem_cons_of_mem _ (List.mem_cons_of_mem _ (List.mem_cons_of_mem _
        (List.mem_cons_of_mem _ (List.mem_cons_of_mem _ (List.mem_cons_self _ _))))))))
  · refine ((infix_m1_of5 "      <article class=\"entry\" data-source=\""
      (escapeHtml a.source) "\" data-labels=\""
      (escapeHtml (joinSep " " a.labels)) "\">").trans ?_).trans hblk
    apply hline
    unfold articleBlockLines
    exact List.mem_cons_self _ _
  · refine ((infix_m1_of5 "        <h2><a href=\"" (escapeHtml a.link)
      "\" target=\"_blank\" rel=\"noopener\">" (escapeHtml a.title) "</a></h2>").trans
      ?_).trans hblk
    apply hline
    unfold articleBlockLines
    exact List.mem_cons_of_mem _ (List.mem_cons_of_mem _ (List.mem_cons_of_mem _
      (List.mem_cons_of_mem _ (List.mem_cons_of_mem _ (List.mem_cons_self _ _)))))
  · intro l hl
    refine ⟨escOkL_escapeHtml _, ?_⟩
    have hspan : (escapeHtml l).data <:+: (labelSpan l).data :=
      infix_m2_of5 "<span class=\"label\" data-filter-label=\"" (escapeHtml l) "\">"
        (escapeHtml l) "</span>"
    have hjoin : (labelSpan l).data <:+: (joinSep " " (a.labels.map labelSpan)).data :=
      joinSep_mem_infix " " _ _ (List.mem_map_of_mem labelSpan hl)
    have hline4 : ("          " ++ joinSep " " (a.labels.map labelSpan)).data <:+:
        (articleBlock a).data := by
      apply hline
      unfold articleBlockLines
      exact List.mem_cons_of_mem _ (List.mem_cons_of_mem _ (List.mem_cons_of_mem _
        (List.mem_cons_self _ _)))
    exact (((hspan.trans hjoin).trans
      (infix_last2 "          " (joinSep " " (a.labels.map labelSpan)))).trans hline4).trans hblk
  · intro u hu
    refine ⟨escOkL_escapeHtml _, ?_⟩
    by_cases hu0 : u = ""
    · subst hu0
      have hz : (escapeHtml "").data = [] := rfl
      rw [hz]
      exact List.nil_infix
    · have himg : imgHtml a = "<a href=\"" ++ escapeHtml a.link ++
          "\" target=\"_blank\" rel=\"noopener\"><img class=\"thumb\" src=\"" ++
          escapeHtml u ++ "\" alt=\"\" loading=\"lazy\"></a>" := by
        simp only [imgHtml, hu]
        rw [if_neg hu0]
      have h1 : (escapeHtml u).data <:+: (imgHtml a).data := by
        rw [himg]
        exact infix_m2_of5 "<a href=\"" (escapeHtml a.link)
          "\" target=\"_blank\" rel=\"noopener\"><img class=\"thumb\" src=\"" (escapeHtml u)
          "\" alt=\"\" loading=\"lazy\"></a>"
      have h2 : (imgHtml a).data <:+: ("        " ++ imgHtml a).data :=
        infix_last2 "        " (imgHtml a)
      have h3 : ("        " ++ imgHtml a).data <:+: (articleBlock a).data := by
        apply hline
        unfold articleBlockLines
        exact List.mem_cons_of_mem _ (List.mem_cons_of_mem _ (List.mem_cons_of_mem _
          (List.mem_cons_of_mem _ (List.mem_cons_of_mem _ (List.mem_cons_of_mem _
            (List.mem_cons_self _ _))))))
      exact ((h1.trans h2).trans h3).trans hblk

/-- Witness for C7: a concrete one-article page whose title, labels and
image URL are full of markup characters. -/
theorem generate_html_escapes_user_fields_witness :
    sampleNastyArticle ∈ [sampleNastyArticle] ∧
    escOkL (escapeHtml sampleNastyArticle.title).data = true ∧
    (escapeHtml sampleNastyArticle.title).data <:+:
      (generate_html [sampleNastyArticle] sampleCutoff).data ∧
    escOkL (escapeHtml "l&1").data = true ∧
    (escapeHtml "l&1").data <:+: (generate_html [sampleNastyArticle] sampleCutoff).data ∧
    escOkL (escapeHtml "http://img/?q=\"<&>\"").data = true ∧
    (escapeHtml "http://img/?q=\"<&>\"").data <:+:
      (generate_html [sampleNastyArticle] sampleCutoff).data := by
  have hmem : sampleNastyArticle ∈ [sampleNastyArticle] := List.mem_cons_self _ _
  have hc := generate_html_escapes_user_fields [sampleNastyArticle] sampleCutoff
    sampleNastyArticle hmem
  refine ⟨hmem, hc.1.1, hc.1.2, ?_, ?_, ?_, ?_⟩
  · exact (hc.2.2.2.2.1 "l&1" (by decide)).1
  · exact (hc.2.2.2.2.1 "l&1" (by decide)).2
  · exact (hc.2.2.2.2.2 "http://img/?q=\"<&>\"" (by decide)).1
  · exact (hc.2.2.2.2.2 "http://img/?q=\"<&>\"" (by decide)).2
